import Mathlib

/-!
# Verification of the RAG-Chatbot frontend conversation layer

A shallow embedding of the conversation / upload / query orchestration
implemented in `Frontend/src/App.jsx`, `Frontend/src/Components/Chatwindow.jsx`
and `Frontend/src/Components/Fileuploader.jsx`.

JavaScript values are modelled as follows: strings are `String`, absent or
`null` values are `Option`, JS objects with a fixed field set are structures,
`JSON.parse` results are a `Json` tree (`JSON.parse` either throws — modelled
as `Persisted.corrupt` — or yields a tree, and `JSON.parse` applied to
`JSON.stringify` of a value yields that value back).  Network calls are
modelled by passing their outcome as an explicit argument; the handler code on
each outcome is translated directly from the source.
-/

namespace RagChat

/-- One retrieved source excerpt, a `{source, content}` object from
`response.data.sources`. -/
structure SourceItem where
  source : String
  content : String
deriving DecidableEq, Repr

/-- A chat message as built in `Chatwindow.jsx` and persisted in
`localStorage`: `userMessage` carries neither `sources` nor `isError`,
`botMessage` carries `sources`, `errorMessage` carries `isError: true`.
A JS field that is absent on the object is `none` here. -/
structure Message where
  text : String
  isUser : Bool
  timestamp : String
  sources : Option (List SourceItem)
  isError : Option Bool
deriving DecidableEq, Repr

/-- A conversation record as created in `App.jsx` (`name` is the field used
as the remote index name). -/
structure Conversation where
  id : String
  title : String
  name : String
  hasDocuments : Bool
  messages : List Message
deriving DecidableEq, Repr

/-- App-level React state: the `conversations` array plus
`activeConversationId`. -/
structure AppState where
  conversations : List Conversation
  activeId : String
deriving DecidableEq, Repr

/-! ## JavaScript string primitives

`String.prototype.trim` and the regex class `\s` used in
`createConversation`'s sanitizer.  JS `\s` matches the ASCII whitespace
characters together with the Unicode space separators listed below. -/

/-- The JS regex class `\s` (also the character set removed by
`String.prototype.trim`). -/
def jsSpace (c : Char) : Bool :=
  c = ' ' || c = '\t' || c = '\n' || c.toNat = 0x0B || c.toNat = 0x0C ||
  c = '\r' || c.toNat = 0xA0 || c.toNat = 0x1680 ||
  (0x2000 ≤ c.toNat && c.toNat ≤ 0x200A) ||
  c.toNat = 0x2028 || c.toNat = 0x2029 || c.toNat = 0x202F ||
  c.toNat = 0x205F || c.toNat = 0x3000 || c.toNat = 0xFEFF

/-- JS `s.trim()`: strip leading and trailing whitespace. -/
def jsTrim (s : String) : String :=
  String.mk (((s.data.dropWhile jsSpace).reverse.dropWhile jsSpace).reverse)

/-- The character class kept by the sanitizer regex
`/[^a-zA-Z0-9\s\-_]/g` in `createConversation` (a character is kept when it
does NOT match that negated class). -/
def keepChar (c : Char) : Bool :=
  ('a' ≤ c && c ≤ 'z') || ('A' ≤ c && c ≤ 'Z') || ('0' ≤ c && c ≤ '9') ||
  jsSpace c || c = '-' || c = '_'

/-- JS `chatName.trim().replace(/[^a-zA-Z0-9\s\-_]/g, '')` without the
leading trim: delete every character not in `keepChar`. -/
def sanitizeName (s : String) : String :=
  String.mk (s.data.filter keepChar)

/-! ## `App.jsx` conversation operations -/

/-- Reasons `createConversation` rejects the prompt result:
`emptyTitle` for `!chatName || !chatName.trim()` (cancelled prompt, empty or
whitespace-only input), `invalidTitle` for a title whose sanitized form is
empty. -/
inductive CreateError where
  | emptyTitle
  | invalidTitle
deriving DecidableEq, Repr

/-- Model of `createConversation` from `App.jsx`.  `chatName` is the `prompt` result
(`none` when the prompt is cancelled), `freshId` the generated
`chat-${Date.now()}-${Math.random()...}` identifier.  On rejection the
handler returns before touching any state, so an error carries no state. -/
def createConversation (st : AppState) (chatName : Option String)
    (freshId : String) : Except CreateError AppState :=
  match chatName with
  | none => .error .emptyTitle
  | some raw =>
    if jsTrim raw = "" then .error .emptyTitle
    else
      let sanitizedName := sanitizeName (jsTrim raw)
      if sanitizedName = "" then .error .invalidTitle
      else
        let newConv : Conversation :=
          { id := freshId, title := sanitizedName, name := sanitizedName,
            hasDocuments := false, messages := [] }
        .ok { conversations := st.conversations ++ [newConv],
              activeId := newConv.id }

/-- Model of `deleteConversation` from `App.jsx`.  Returns `none` for the one
unreachable path where `filtered` is empty and `filtered[0].id` would raise
a `TypeError` (it requires two conversations sharing an id). -/
def deleteConversation (st : AppState) (id : String) : Option AppState :=
  if st.conversations.length = 1 then some st
  else
    let filtered := st.conversations.filter (fun c => c.id != id)
    if st.activeId = id then
      match filtered.head? with
      | some c => some { conversations := filtered, activeId := c.id }
      | none => none
    else some { conversations := filtered, activeId := st.activeId }

/-- Model of `handleUploadSuccess` from `App.jsx`: mark the conversation whose id is
`activeConversationId` as having documents.  The callback closes over the
`activeConversationId` of the render in which the upload was started, which
is the same value passed to the uploader as `chatId`. -/
def handleUploadSuccess (convs : List Conversation) (activeId : String) :
    List Conversation :=
  convs.map (fun c =>
    if c.id = activeId then { c with hasDocuments := true } else c)

/-- Model of `addMessageToConversation` from `App.jsx`: append `message` to the
conversation named by `chatId` (functional state update on the current
collection). -/
def addMessageToConversation (convs : List Conversation) (chatId : String)
    (m : Message) : List Conversation :=
  convs.map (fun c =>
    if c.id = chatId then { c with messages := c.messages ++ [m] } else c)

/-- Model of `handleResetSystem` from `App.jsx`.  `confirmed` is the result of the
`window.confirm` dialog; `remoteOk` tells whether `POST /reset` succeeded.
On a failed remote call the handler only alerts, leaving state unchanged. -/
def handleResetSystem (st : AppState) (confirmed : Bool) (remoteOk : Bool) :
    AppState :=
  if !confirmed then st
  else if remoteOk then
    { st with conversations := st.conversations.map (fun c =>
        if c.id = st.activeId then
          { c with hasDocuments := false, messages := [] }
        else c) }
  else st

/-! ## JSON values and the persisted representation

`localStorage` holds `JSON.stringify(conversations)`.  `JSON.parse` of a
stored string either throws (the `catch` branch of the initializer) or
yields a JSON tree, and parsing the output of `JSON.stringify` yields the
serialized value back, so serialization is modelled at the tree level. -/

/-- A JSON value. -/
inductive Json where
  | null
  | bool (b : Bool)
  | num (n : Int)
  | str (s : String)
  | arr (elems : List Json)
  | obj (fields : List (String × Json))
deriving Repr

/-- Image under `JSON.stringify` of a `{source, content}` object. -/
def encodeSourceItem (s : SourceItem) : Json :=
  .obj [("source", .str s.source), ("content", .str s.content)]

/-- Image under `JSON.stringify` of a message object; absent optional fields are simply
missing from the object. -/
def encodeMessage (m : Message) : Json :=
  .obj ([("text", .str m.text), ("isUser", .bool m.isUser),
         ("timestamp", .str m.timestamp)]
    ++ (match m.sources with
        | some ss => [("sources", .arr (ss.map encodeSourceItem))]
        | none => [])
    ++ (match m.isError with
        | some b => [("isError", .bool b)]
        | none => []))

/-- Image under `JSON.stringify` of a conversation object. -/
def encodeConversation (c : Conversation) : Json :=
  .obj [("id", .str c.id), ("title", .str c.title), ("name", .str c.name),
        ("hasDocuments", .bool c.hasDocuments),
        ("messages", .arr (c.messages.map encodeMessage))]

/-- Image under `JSON.stringify` of the conversation collection. -/
def encodeConversations (cs : List Conversation) : Json :=
  .arr (cs.map encodeConversation)

/-- Field lookup in a JSON object (first occurrence, as in JS). -/
def lookupField (fields : List (String × Json)) (k : String) : Option Json :=
  (fields.find? (fun p => p.1 == k)).map (fun p => p.2)

/-- Read a JSON value as a string. -/
def decodeStr : Json → Option String
  | .str s => some s
  | _ => none

/-- Read a JSON value as a boolean. -/
def decodeBool : Json → Option Bool
  | .bool b => some b
  | _ => none

/-- Read a JSON value as a `{source, content}` object. -/
def decodeSourceItem : Json → Option SourceItem
  | .obj fs => do
      let s ← lookupField fs "source" >>= decodeStr
      let c ← lookupField fs "content" >>= decodeStr
      pure { source := s, content := c }
  | _ => none

/-- Read a JSON value as a message object (the shape produced and consumed
by the frontend: `text`, `isUser`, `timestamp` required; `sources`,
`isError` optional). -/
def decodeMessage : Json → Option Message
  | .obj fs => do
      let t ← lookupField fs "text" >>= decodeStr
      let u ← lookupField fs "isUser" >>= decodeBool
      let ts ← lookupField fs "timestamp" >>= decodeStr
      let srcs ← match lookupField fs "sources" with
        | none => pure none
        | some (.arr xs) => (xs.mapM decodeSourceItem).map some
        | some _ => none
      let ie ← match lookupField fs "isError" with
        | none => pure none
        | some j => (decodeBool j).map some
      pure { text := t, isUser := u, timestamp := ts, sources := srcs,
             isError := ie }
  | _ => none

/-- Read a JSON value as a conversation object. -/
def decodeConversation : Json → Option Conversation
  | .obj fs => do
      let i ← lookupField fs "id" >>= decodeStr
      let t ← lookupField fs "title" >>= decodeStr
      let n ← lookupField fs "name" >>= decodeStr
      let h ← lookupField fs "hasDocuments" >>= decodeBool
      let ms ← match lookupField fs "messages" with
        | some (.arr xs) => xs.mapM decodeMessage
        | _ => none
      pure { id := i, title := t, name := n, hasDocuments := h,
             messages := ms }
  | _ => none

/-- Read a JSON value as a conversation collection (the typed reading of
the untyped value `JSON.parse` hands to the app). -/
def decodeConversations : Json → Option (List Conversation)
  | .arr xs => xs.mapM decodeConversation
  | _ => none

/-! ## Startup: loading persisted state -/

/-- The state of the `rag_conversations` key in `localStorage`:
absent (`getItem` returns `null`), present but unparseable
(`JSON.parse` throws), or present and parsing to a JSON value. -/
inductive Persisted where
  | absent
  | corrupt
  | value (j : Json)

/-- The default collection built by the `useState` initializer when no
usable persisted data exists; `now` is the `Date.now()` timestamp string. -/
def defaultConversations (now : String) : List Conversation :=
  [{ id := "chat_" ++ now, title := "New Chat", name := "default",
     hasDocuments := false, messages := [] }]

/-- The `conversations` `useState` initializer in `App.jsx`, at the JSON
level: a stored value that parses is returned as-is (no validation); only
an absent value or a `JSON.parse` exception falls back to the default. -/
def loadConversationsJson (saved : Persisted) (now : String) : Json :=
  match saved with
  | .value j => j
  | _ => encodeConversations (defaultConversations now)

/-- The `activeConversationId` `useState` initializer:
`saved || conversations[0].id` (an empty stored string is falsy in JS);
`none` is returned in the crash case where `conversations[0]` is
`undefined`. -/
def initActiveId (savedActive : Option String)
    (convs : List Conversation) : Option String :=
  match savedActive with
  | some s => if s = "" then (convs.head?).map Conversation.id else some s
  | none => (convs.head?).map Conversation.id

/-- The full startup state.  `none` models the states the typed embedding
cannot represent: a parseable persisted value that is not a conversation
collection (the untyped JS app would hold it anyway), or the
`conversations[0]` crash. -/
def initState (savedConvs : Persisted) (savedActive : Option String)
    (now : String) : Option AppState :=
  match decodeConversations (loadConversationsJson savedConvs now) with
  | none => none
  | some convs =>
    match initActiveId savedActive convs with
    | some a => some { conversations := convs, activeId := a }
    | none => none

/-! ## `Chatwindow.jsx` -/

/-- Local React state of `ChatWindow`: the textarea `input`, the local
`messages` copy, and the `isLoading` flag (set while a query is in
flight). -/
structure ChatState where
  input : String
  localMessages : List Message
  isLoading : Bool
deriving DecidableEq, Repr

/-- The body of `POST /query`. -/
structure QueryRequest where
  question : String
  chat_id : String
  chat_name : String
deriving DecidableEq, Repr

/-- Outcome of the `axios.post('/query', ...)` call: a success body
(`answer` plus possibly-absent `sources`), or a failure whose
`err.response?.data?.detail` may be absent. -/
inductive QueryResult where
  | success (answer : String) (sources : Option (List SourceItem))
  | failure (detail : Option String)
deriving DecidableEq, Repr

/-- First phase of `handleSend`, up to and including the dispatch of the
query request: the guard
`if (!input.trim() || !hasDocuments || isLoading) return;`, then the
optimistic append of the user message (locally and via `onAddMessage`),
clearing the input, setting `isLoading`, and forming the request body.
Returns the updated window state, the updated collection, and the request
(`none` when the guard returned and nothing was dispatched).  `ts` is the
`new Date().toISOString()` timestamp. -/
def handleSendStart (cs : ChatState) (convs : List Conversation)
    (chatId chatName : String) (hasDocuments : Bool) (ts : String) :
    ChatState × List Conversation × Option QueryRequest :=
  if jsTrim cs.input = "" || !hasDocuments || cs.isLoading then
    (cs, convs, none)
  else
    let userMessage : Message :=
      { text := jsTrim cs.input, isUser := true, timestamp := ts,
        sources := none, isError := none }
    ({ input := "", localMessages := cs.localMessages ++ [userMessage],
       isLoading := true },
     addMessageToConversation convs chatId userMessage,
     some { question := jsTrim cs.input, chat_id := chatId,
            chat_name := chatName })

/-- The generic fallback text of the `catch` branch of `handleSend`. -/
def queryErrorFallback : String :=
  "Sorry, I encountered an error. Please try again."

/-- Second phase of `handleSend`: handling the query response.  On success
a bot message with `sources: response.data.sources || []` is appended; in
the `catch` branch an `isError: true` message with
`err.response?.data?.detail` (or the generic fallback) is appended; the
`finally` branch clears `isLoading`.  `ts` is the completion timestamp. -/
def handleSendFinish (cs : ChatState) (convs : List Conversation)
    (chatId : String) (res : QueryResult) (ts : String) :
    ChatState × List Conversation :=
  match res with
  | .success answer sources =>
    let botMessage : Message :=
      { text := answer, isUser := false, timestamp := ts,
        sources := some (sources.getD []), isError := none }
    ({ cs with localMessages := cs.localMessages ++ [botMessage],
               isLoading := false },
     addMessageToConversation convs chatId botMessage)
  | .failure detail =>
    let errorMessage : Message :=
      { text := detail.getD queryErrorFallback, isUser := false,
        timestamp := ts, sources := none, isError := some true }
    ({ cs with localMessages := cs.localMessages ++ [errorMessage],
               isLoading := false },
     addMessageToConversation convs chatId errorMessage)

/-- The whole `handleSend` run (no interleaved events between dispatch and
response): phase one, and, when a request was dispatched, phase two on its
outcome.  The handler catches every failure, so the run is a total
function — no exception propagates past it. -/
def handleSend (cs : ChatState) (convs : List Conversation)
    (chatId chatName : String) (hasDocuments : Bool) (ts1 ts2 : String)
    (res : QueryResult) :
    ChatState × List Conversation × Option QueryRequest :=
  match handleSendStart cs convs chatId chatName hasDocuments ts1 with
  | (cs1, convs1, none) => (cs1, convs1, none)
  | (cs1, convs1, some req) =>
    let fin := handleSendFinish cs1 convs1 chatId res ts2
    (fin.1, fin.2, some req)

/-- Model of `handleClearChat` from `Chatwindow.jsx`: after confirmation it runs
`setMessages([])` on the window-local copy only — it has no callback into
`App`, so the conversation collection (and hence the persisted store) is
not touched. -/
def handleClearChat (cs : ChatState) (confirmed : Bool) : ChatState :=
  if confirmed then { cs with localMessages := [] } else cs

/-- The `hasDocuments` prop that `App.jsx` passes to `ChatWindow`:
`activeConversation?.hasDocuments || false` where `activeConversation` is
`conversations.find(c => c.id === activeConversationId)`. -/
def hasDocumentsOf (convs : List Conversation) (id : String) : Bool :=
  match convs.find? (fun c => c.id == id) with
  | some c => c.hasDocuments
  | none => false

/-! ## `Fileuploader.jsx` -/

/-- The multipart form of `POST /upload` (the file content itself is not
modelled; `chat_name` is appended only when the prop is truthy). -/
structure UploadRequest where
  chat_id : String
  chat_name : Option String
deriving DecidableEq, Repr

/-- Model of `uploadFile` up to the dispatch of the request: with no file selected
it sets the `'Please select a file first'` error and returns without a
request; otherwise it posts the form.  On a success response it calls
`onUploadSuccess`, which is `handleUploadSuccess` closed over the
`activeConversationId` equal to this `chatId`. -/
def uploadFile (file : Option String) (chatId : String)
    (chatName : Option String) : Option UploadRequest :=
  match file with
  | none => none
  | some _ =>
    some { chat_id := chatId,
           chat_name := match chatName with
             | some s => if s = "" then none else some s
             | none => none }

/-! ## Sequences of create/delete operations -/

/-- A user-level conversation-list operation: clicking "New Chat" (with the
prompt answer and the generated fresh id) or deleting a conversation. -/
inductive Op where
  | create (chatName : Option String) (freshId : String)
  | delete (id : String)

/-- Run one operation on the app state.  A rejected create leaves the
state unchanged (the handler returns before any `setState`); the
unreachable `deleteConversation` crash case is likewise modelled as
leaving the state unchanged. -/
def applyOp (st : AppState) (op : Op) : AppState :=
  match op with
  | .create chatName freshId =>
    match createConversation st chatName freshId with
    | .ok st' => st'
    | .error _ => st
  | .delete id =>
    match deleteConversation st id with
    | some st' => st'
    | none => st

/-- Run a sequence of operations left to right. -/
def applyOps (st : AppState) (ops : List Op) : AppState :=
  ops.foldl applyOp st

/-- Each `create` in the sequence uses an identifier not already present —
the code generates ids from `Date.now()` plus a random suffix, which the
spec describes as "a fresh unique identifier". -/
def freshAlong : AppState → List Op → Bool
  | _, [] => true
  | st, op :: ops =>
    (match op with
     | .create _ freshId =>
       !(decide (freshId ∈ st.conversations.map Conversation.id))
     | .delete _ => true) && freshAlong (applyOp st op) ops

/-- The claimed conversation invariant: the collection is non-empty and the
active identifier names a member. -/
def ConvInvariant (st : AppState) : Prop :=
  st.conversations ≠ [] ∧
  st.activeId ∈ st.conversations.map Conversation.id

instance (st : AppState) : Decidable (ConvInvariant st) := by
  unfold ConvInvariant; infer_instance

/-- The inductive strengthening used to prove `ConvInvariant`: the
conversation identifiers are also pairwise distinct. -/
def StrongInv (st : AppState) : Prop :=
  ConvInvariant st ∧ (st.conversations.map Conversation.id).Nodup

/-- The startup state when nothing is persisted. -/
def defaultInit (now : String) : AppState :=
  { conversations := defaultConversations now, activeId := "chat_" ++ now }

/-- Follows the spec's words for C4, for comparison with the source's
`keepChar`: "retaining only alphanumerics, spaces, hyphens and
underscores", reading "spaces" as the space character. -/
def specKeepChar (c : Char) : Bool :=
  c.isAlphanum || c = ' ' || c = '-' || c = '_'

/-- The `useEffect` persistence mirror in `App.jsx`: after every
`setConversations` the collection is re-serialized into `localStorage`, so
the persisted value is always the serialization of the current
collection. -/
def persistedValue (convs : List Conversation) : Json :=
  encodeConversations convs

/-- The combined effect of the Clear Chat button on the window state and
the App collection: `handleClearChat` has no callback into `App`, so the
collection is returned untouched. -/
def clearChatStep (cs : ChatState) (convs : List Conversation)
    (confirmed : Bool) : ChatState × List Conversation :=
  (handleClearChat cs confirmed, convs)

/-! ## Invariant preservation lemmas -/

theorem strongInv_defaultInit (now : String) : StrongInv (defaultInit now) := by
  simp [StrongInv, ConvInvariant, defaultInit, defaultConversations]

theorem strongInv_create (st : AppState) (chatName : Option String)
    (freshId : String)
    (hInv : StrongInv st)
    (hFresh : freshId ∉ st.conversations.map Conversation.id) :
    StrongInv (applyOp st (.create chatName freshId)) := by
  obtain ⟨⟨hne, hmem⟩, hnd⟩ := hInv
  match chatName with
  | none => exact ⟨⟨hne, hmem⟩, hnd⟩
  | some raw =>
    show StrongInv (match createConversation st (some raw) freshId with
      | .ok st' => st' | .error _ => st)
    rw [createConversation]
    by_cases h1 : jsTrim raw = ""
    · simp only [if_pos h1]
      exact ⟨⟨hne, hmem⟩, hnd⟩
    · by_cases h2 : sanitizeName (jsTrim raw) = ""
      · simp only [if_neg h1, if_pos h2]
        exact ⟨⟨hne, hmem⟩, hnd⟩
      · simp only [if_neg h1, if_neg h2]
        refine ⟨⟨by simp, by simp⟩, ?_⟩
        simp only [List.map_append, List.map_cons, List.map_nil,
          List.nodup_append]
        refine ⟨hnd, List.nodup_singleton _, ?_⟩
        intro a ha hb
        rw [List.mem_singleton] at hb
        exact hFresh (hb ▸ ha)

theorem strongInv_delete (st : AppState) (id : String)
    (hInv : StrongInv st) :
    StrongInv (applyOp st (.delete id)) := by
  obtain ⟨⟨hne, hmem⟩, hnd⟩ := hInv
  have hnd' : ((st.conversations.filter (fun c => c.id != id)).map
      Conversation.id).Nodup :=
    hnd.sublist ((List.filter_sublist _).map Conversation.id)
  show StrongInv (match deleteConversation st id with
    | some st' => st' | none => st)
  rw [deleteConversation]
  by_cases hlen : st.conversations.length = 1
  · simp only [if_pos hlen]
    exact ⟨⟨hne, hmem⟩, hnd⟩
  · simp only [if_neg hlen]
    by_cases hact : st.activeId = id
    · simp only [if_pos hact]
      have hfne : st.conversations.filter (fun c => c.id != id) ≠ [] := by
        cases hcv : st.conversations with
        | nil => exact absurd hcv hne
        | cons c₁ tl =>
          cases tl with
          | nil => exact absurd (by rw [hcv]; rfl) hlen
          | cons c₂ rest =>
            have hnd2 := hcv ▸ hnd
            simp only [List.map_cons, List.nodup_cons] at hnd2
            have hne12 : c₁.id ≠ c₂.id := by
              intro h
              exact hnd2.1 (by simp [h])
            by_cases h1 : c₁.id = id
            · have h2 : c₂.id ≠ id := fun h => hne12 (by rw [h1, h])
              intro hemp
              have hm : c₂ ∈ (c₁ :: c₂ :: rest).filter (fun c => c.id != id) :=
                List.mem_filter.mpr ⟨by simp, by simpa using h2⟩
              rw [hemp] at hm
              exact (List.not_mem_nil c₂) hm
            · intro hemp
              have hm : c₁ ∈ (c₁ :: c₂ :: rest).filter (fun c => c.id != id) :=
                List.mem_filter.mpr ⟨by simp, by simpa using h1⟩
              rw [hemp] at hm
              exact (List.not_mem_nil c₁) hm
      cases hh : (st.conversations.filter (fun c => c.id != id)).head? with
      | none => exact absurd (List.head?_eq_none_iff.mp hh) hfne
      | some c =>
        simp only [hh]
        have hcmem : c ∈ st.conversations.filter (fun c => c.id != id) := by
          cases hcv : st.conversations.filter (fun c => c.id != id) with
          | nil => rw [hcv] at hh; simp at hh
          | cons x xs =>
            rw [hcv] at hh
            simp only [List.head?_cons, Option.some.injEq] at hh
            rw [← hh]
            exact List.mem_cons_self x xs
        exact ⟨⟨hfne, List.mem_map_of_mem Conversation.id hcmem⟩, hnd'⟩
    · simp only [if_neg hact]
      obtain ⟨c, hcmem, hcid⟩ := List.mem_map.mp hmem
      have hckept : c ∈ st.conversations.filter (fun c => c.id != id) :=
        List.mem_filter.mpr ⟨hcmem, by simp [hcid, hact]⟩
      refine ⟨⟨List.ne_nil_of_mem hckept, ?_⟩, hnd'⟩
      exact List.mem_map.mpr ⟨c, hckept, hcid⟩

theorem strongInv_applyOps (st : AppState) (ops : List Op)
    (hInv : StrongInv st) (hFresh : freshAlong st ops = true) :
    StrongInv (applyOps st ops) := by
  induction ops generalizing st with
  | nil => exact hInv
  | cons op rest ih =>
    cases op with
    | create chatName freshId =>
      have hF : (!(decide (freshId ∈ st.conversations.map Conversation.id)) &&
          freshAlong (applyOp st (.create chatName freshId)) rest) = true :=
        hFresh
      rw [Bool.and_eq_true] at hF
      have h1 := hF.1
      simp only [Bool.not_eq_true', decide_eq_false_iff_not] at h1
      exact ih _ (strongInv_create st chatName freshId hInv h1) hF.2
    | delete id =>
      have hF : (true && freshAlong (applyOp st (.delete id)) rest) = true :=
        hFresh
      rw [Bool.and_eq_true] at hF
      exact ih _ (strongInv_delete st id hInv) hF.2

/-! ## Serialization round-trip lemmas -/

theorem decode_encode_sourceItem (s : SourceItem) :
    decodeSourceItem (encodeSourceItem s) = some s := by
  rfl

theorem mapM_decode_sourceItems (ss acc : List SourceItem) :
    List.mapM.loop decodeSourceItem (ss.map encodeSourceItem) acc =
      some (acc.reverse ++ ss) := by
  induction ss generalizing acc with
  | nil => simp [List.mapM.loop]
  | cons s rest ih =>
    rw [List.map_cons, List.mapM.loop, decode_encode_sourceItem]
    simp [ih]

theorem decode_encode_message (m : Message) :
    decodeMessage (encodeMessage m) = some m := by
  obtain ⟨t, u, ts, srcs, ie⟩ := m
  cases srcs with
  | none =>
    cases ie with
    | none => rfl
    | some b => rfl
  | some ss =>
    cases ie with
    | none =>
      show decodeMessage (.obj [("text", .str t), ("isUser", .bool u),
        ("timestamp", .str ts),
        ("sources", .arr (ss.map encodeSourceItem))]) = _
      rw [decodeMessage]
      simp [lookupField, List.find?, mapM_decode_sourceItems, decodeStr, decodeBool]
    | some b =>
      show decodeMessage (.obj [("text", .str t), ("isUser", .bool u),
        ("timestamp", .str ts),
        ("sources", .arr (ss.map encodeSourceItem)),
        ("isError", .bool b)]) = _
      rw [decodeMessage]
      simp [lookupField, List.find?, mapM_decode_sourceItems, decodeStr, decodeBool]

theorem mapM_decode_messages (ms acc : List Message) :
    List.mapM.loop decodeMessage (ms.map encodeMessage) acc =
      some (acc.reverse ++ ms) := by
  induction ms generalizing acc with
  | nil => simp [List.mapM.loop]
  | cons m rest ih =>
    rw [List.map_cons, List.mapM.loop, decode_encode_message]
    simp [ih]

theorem decode_encode_conversation (c : Conversation) :
    decodeConversation (encodeConversation c) = some c := by
  obtain ⟨i, t, n, h, ms⟩ := c
  show decodeConversation (.obj [("id", .str i), ("title", .str t),
    ("name", .str n), ("hasDocuments", .bool h),
    ("messages", .arr (ms.map encodeMessage))]) = _
  rw [decodeConversation]
  simp [lookupField, List.find?, mapM_decode_messages, decodeStr, decodeBool]

theorem mapM_decode_conversations (cs acc : List Conversation) :
    List.mapM.loop decodeConversation (cs.map encodeConversation) acc =
      some (acc.reverse ++ cs) := by
  induction cs generalizing acc with
  | nil => simp [List.mapM.loop]
  | cons c rest ih =>
    rw [List.map_cons, List.mapM.loop, decode_encode_conversation]
    simp [ih]

theorem decode_encode_conversations (cs : List Conversation) :
    decodeConversations (encodeConversations cs) = some cs := by
  show List.mapM.loop decodeConversation (cs.map encodeConversation) [] =
    some cs
  simpa using mapM_decode_conversations cs []

theorem initState_absent (now : String) :
    initState .absent none now = some (defaultInit now) := by
  show (match decodeConversations
      (encodeConversations (defaultConversations now)) with
    | none => none
    | some convs =>
      match initActiveId none convs with
      | some a => some { conversations := convs, activeId := a }
      | none => none) = some (defaultInit now)
  rw [decode_encode_conversations]
  rfl

/-! ## Shared helper lemmas about the handlers -/

theorem handleSendStart_blocked (cs : ChatState) (convs : List Conversation)
    (chatId chatName : String) (hasDocuments : Bool) (ts : String)
    (h : jsTrim cs.input = "" ∨ hasDocuments = false ∨ cs.isLoading = true) :
    handleSendStart cs convs chatId chatName hasDocuments ts =
      (cs, convs, none) := by
  rcases h with h | h | h <;> simp [handleSendStart, h]

theorem handleSendStart_dispatch (cs : ChatState) (convs : List Conversation)
    (chatId chatName : String) (ts : String)
    (h1 : jsTrim cs.input ≠ "") (h3 : cs.isLoading = false) :
    handleSendStart cs convs chatId chatName true ts =
      ({ input := "", localMessages := cs.localMessages ++
           [{ text := jsTrim cs.input, isUser := true, timestamp := ts,
              sources := none, isError := none }], isLoading := true },
       addMessageToConversation convs chatId
         { text := jsTrim cs.input, isUser := true, timestamp := ts,
           sources := none, isError := none },
       some { question := jsTrim cs.input, chat_id := chatId,
              chat_name := chatName }) := by
  simp [handleSendStart, h1, h3]

theorem getElem?_addMessage (convs : List Conversation) (chatId : String)
    (m : Message) (i : Nat) (c : Conversation)
    (hc : convs[i]? = some c) :
    (addMessageToConversation convs chatId m)[i]? =
      some (if c.id = chatId then { c with messages := c.messages ++ [m] }
            else c) := by
  rw [addMessageToConversation, List.getElem?_map, hc, Option.map_some']

theorem getElem?_uploadSuccess (convs : List Conversation) (activeId : String)
    (i : Nat) (c : Conversation) (hc : convs[i]? = some c) :
    (handleUploadSuccess convs activeId)[i]? =
      some (if c.id = activeId then { c with hasDocuments := true }
            else c) := by
  rw [handleUploadSuccess, List.getElem?_map, hc, Option.map_some']

/-! ## Claim theorems -/

/-- Claim C2: every upload issued for a conversation, on success, marks that
conversation (the one named by the `chat_id` of the dispatched request,
which is the `activeConversationId` the success callback closed over) as
having documents, and marking an already-marked conversation leaves the
collection unchanged.  The model is total: the uploader's `catch` branch
only sets a transient error string. -/
theorem upload_marks_and_idempotent (convs : List Conversation)
    (chatId : String) (file : String) (chatName : Option String)
    (i : Nat) (c : Conversation)
    (hc : convs[i]? = some c) (hid : c.id = chatId) :
    (∃ r, uploadFile (some file) chatId chatName = some r ∧
      r.chat_id = chatId) ∧
    ((handleUploadSuccess convs chatId)[i]? =
      some { c with hasDocuments := true }) ∧
    ((∀ c' ∈ convs, c'.id = chatId → c'.hasDocuments = true) →
      handleUploadSuccess convs chatId = convs) := by
  refine ⟨⟨_, rfl, rfl⟩, ?_, ?_⟩
  · rw [getElem?_uploadSuccess convs chatId i c hc, if_pos hid]
  · intro hall
    show convs.map (fun (c' : Conversation) =>
        if c'.id = chatId then { c' with hasDocuments := true } else c') =
      convs
    have hcongr : ∀ c' ∈ convs,
        (if c'.id = chatId then { c' with hasDocuments := true } else c') =
          id c' := by
      intro c' hmem
      by_cases h : c'.id = chatId
      · rw [if_pos h, ← hall c' hmem h]; rfl
      · rw [if_neg h]; rfl
    exact (List.map_congr_left hcongr).trans (List.map_id convs)

/-- Claim C2 witness. -/
theorem upload_marks_and_idempotent_witness :
    (∃ r, uploadFile (some "f.pdf") "a" (some "A") = some r ∧
      r.chat_id = "a") ∧
    ((handleUploadSuccess
        [{ id := "a", title := "A", name := "A", hasDocuments := false,
           messages := [] }] "a")[0]? =
      some { id := "a", title := "A", name := "A", hasDocuments := true,
             messages := [] }) ∧
    ((∀ c' ∈ ([{ id := "a", title := "A", name := "A", hasDocuments := false,
                 messages := [] }] : List Conversation),
        c'.id = "a" → c'.hasDocuments = true) →
      handleUploadSuccess
        [{ id := "a", title := "A", name := "A", hasDocuments := false,
           messages := [] }] "a" =
        [{ id := "a", title := "A", name := "A", hasDocuments := false,
           messages := [] }]) :=
  upload_marks_and_idempotent
    [{ id := "a", title := "A", name := "A", hasDocuments := false,
       messages := [] }] "a" "f.pdf" (some "A") 0 _ rfl rfl

/-- Claim C3: with the confirmation given, a successful `POST /reset` leaves
the active conversation with `hasDocuments = false` and an empty message
sequence; a failed `POST /reset` leaves the whole state unchanged. -/
theorem reset_semantics (st : AppState) (i : Nat) (c : Conversation)
    (hc : st.conversations[i]? = some c) (hid : c.id = st.activeId)
    (_hmsgs : c.messages ≠ []) (_hdocs : c.hasDocuments = true) :
    ((handleResetSystem st true true).conversations[i]? =
      some { c with hasDocuments := false, messages := [] }) ∧
    handleResetSystem st true false = st := by
  refine ⟨?_, rfl⟩
  show (st.conversations.map (fun c' =>
      if c'.id = st.activeId then
        { c' with hasDocuments := false, messages := [] }
      else c'))[i]? = _
  rw [List.getElem?_map, hc, Option.map_some', if_pos hid]

/-- Claim C3 witness. -/
theorem reset_semantics_witness :
    ((handleResetSystem
        { conversations :=
            [{ id := "a", title := "A", name := "A", hasDocuments := true,
               messages :=
                 [{ text := "q1", isUser := true, timestamp := "t1",
                    sources := none, isError := none },
                  { text := "a1", isUser := false, timestamp := "t2",
                    sources := some [], isError := none },
                  { text := "q2", isUser := true, timestamp := "t3",
                    sources := none, isError := none }] }],
          activeId := "a" } true true).conversations[0]? =
      some { id := "a", title := "A", name := "A", hasDocuments := false,
             messages := [] }) ∧
    handleResetSystem
        { conversations :=
            [{ id := "a", title := "A", name := "A", hasDocuments := true,
               messages :=
                 [{ text := "q1", isUser := true, timestamp := "t1",
                    sources := none, isError := none },
                  { text := "a1", isUser := false, timestamp := "t2",
                    sources := some [], isError := none },
                  { text := "q2", isUser := true, timestamp := "t3",
                    sources := none, isError := none }] }],
          activeId := "a" } true false =
      { conversations :=
          [{ id := "a", title := "A", name := "A", hasDocuments := true,
             messages :=
               [{ text := "q1", isUser := true, timestamp := "t1",
                  sources := none, isError := none },
                { text := "a1", isUser := false, timestamp := "t2",
                  sources := some [], isError := none },
                { text := "q2", isUser := true, timestamp := "t3",
                  sources := none, isError := none }] }],
        activeId := "a" } :=
  reset_semantics
    { conversations :=
        [{ id := "a", title := "A", name := "A", hasDocuments := true,
           messages :=
             [{ text := "q1", isUser := true, timestamp := "t1",
                sources := none, isError := none },
              { text := "a1", isUser := false, timestamp := "t2",
                sources := some [], isError := none },
              { text := "q2", isUser := true, timestamp := "t3",
                sources := none, isError := none }] }],
      activeId := "a" } 0
    { id := "a", title := "A", name := "A", hasDocuments := true,
      messages :=
        [{ text := "q1", isUser := true, timestamp := "t1",
           sources := none, isError := none },
         { text := "a1", isUser := false, timestamp := "t2",
           sources := some [], isError := none },
         { text := "q2", isUser := true, timestamp := "t3",
           sources := none, isError := none }] }
    rfl rfl (by decide) rfl

/-- Claim C4 counterexample: the sanitizer keeps every JS `\s` character, not
just spaces: `createConversation` on the raw title `"a\tb!"` succeeds with
title `"a\tb"`, which contains a tab — a character outside the claim's
"alphanumerics, spaces, hyphens and underscores". -/
theorem create_sanitize_counterexample :
    createConversation (defaultInit "0") (some "a\tb!") "id1" =
      .ok { conversations := defaultConversations "0" ++
              [{ id := "id1", title := "a\tb", name := "a\tb",
                 hasDocuments := false, messages := [] }],
            activeId := "id1" } ∧
    ("a\tb".data.all specKeepChar) = false := by
  exact ⟨rfl, by decide⟩

/-- Claim C4 (amended): `createConversation` rejects a cancelled, empty or
whitespace-only title and a title sanitizing to empty, in both cases
leaving the state unchanged; otherwise it appends a conversation whose
title and index name are the trimmed title with every character outside
alphanumerics, whitespace (the JS `\s` class), hyphens and underscores
removed, and makes it active; `" Report #1! "` sanitizes to `"Report 1"`
and `"###"` is rejected. -/
theorem createConversation_spec (st : AppState) (raw freshId : String) :
    (createConversation st none freshId = .error .emptyTitle) ∧
    (jsTrim raw = "" →
      createConversation st (some raw) freshId = .error .emptyTitle) ∧
    (jsTrim raw ≠ "" → sanitizeName (jsTrim raw) = "" →
      createConversation st (some raw) freshId = .error .invalidTitle) ∧
    (∀ e, createConversation st (some raw) freshId = .error e →
      applyOp st (.create (some raw) freshId) = st) ∧
    (jsTrim raw ≠ "" → sanitizeName (jsTrim raw) ≠ "" →
      createConversation st (some raw) freshId =
        .ok { conversations := st.conversations ++
                [{ id := freshId, title := sanitizeName (jsTrim raw),
                   name := sanitizeName (jsTrim raw),
                   hasDocuments := false, messages := [] }],
              activeId := freshId }) ∧
    ((sanitizeName (jsTrim raw)).data.all keepChar = true) ∧
    (sanitizeName (jsTrim " Report #1! ") = "Report 1") ∧
    (createConversation st (some "###") freshId = .error .invalidTitle) := by
  refine ⟨rfl, ?_, ?_, ?_, ?_, ?_, by decide, ?_⟩
  · intro h
    rw [createConversation, if_pos h]
  · intro h1 h2
    rw [createConversation, if_neg h1]
    simp [h2]
  · intro e he
    show (match createConversation st (some raw) freshId with
      | .ok st' => st' | .error _ => st) = st
    rw [he]
  · intro h1 h2
    rw [createConversation, if_neg h1]
    simp only [if_neg h2]
  · rw [List.all_eq_true]
    intro c hmem
    exact (List.mem_filter.mp hmem).2
  · show (if jsTrim "###" = "" then (.error .emptyTitle : Except CreateError
        AppState)
      else if sanitizeName (jsTrim "###") = "" then .error .invalidTitle
      else .ok { conversations := st.conversations ++
                   [{ id := freshId, title := sanitizeName (jsTrim "###"),
                      name := sanitizeName (jsTrim "###"),
                      hasDocuments := false, messages := [] }],
                 activeId := freshId }) = .error .invalidTitle
    rw [if_neg (by decide), if_pos (by decide)]

/-- Claim C4 witness. -/
theorem createConversation_spec_witness :
    createConversation (defaultInit "0") (some " Report #1! ") "id1" =
      .ok { conversations := defaultConversations "0" ++
              [{ id := "id1", title := sanitizeName (jsTrim " Report #1! "),
                 name := sanitizeName (jsTrim " Report #1! "),
                 hasDocuments := false, messages := [] }],
            activeId := "id1" } :=
  ((createConversation_spec (defaultInit "0") " Report #1! "
    "id1").2.2.2.2.1) (by decide) (by decide)

/-- Claim C9: `addMessageToConversation`, the upload-success marking, and the
local clearing step of a confirmed successful reset all leave every
conversation whose identifier differs from the targeted one untouched, all
fields included. -/
theorem per_conversation_frame (convs : List Conversation) (target : String)
    (m : Message) (st : AppState) (i j : Nat) (c d : Conversation)
    (hc : convs[i]? = some c) (hcne : c.id ≠ target)
    (hd : st.conversations[j]? = some d) (hdne : d.id ≠ st.activeId) :
    (addMessageToConversation convs target m)[i]? = some c ∧
    (handleUploadSuccess convs target)[i]? = some c ∧
    (handleResetSystem st true true).conversations[j]? = some d := by
  refine ⟨?_, ?_, ?_⟩
  · rw [getElem?_addMessage convs target m i c hc, if_neg hcne]
  · rw [getElem?_uploadSuccess convs target i c hc, if_neg hcne]
  · show (st.conversations.map (fun c' =>
        if c'.id = st.activeId then
          { c' with hasDocuments := false, messages := [] }
        else c'))[j]? = _
    rw [List.getElem?_map, hd, Option.map_some', if_neg hdne]

/-- Claim C9 witness. -/
theorem per_conversation_frame_witness :
    (addMessageToConversation
      [{ id := "a", title := "A", name := "A", hasDocuments := false,
         messages := [] },
       { id := "b", title := "B", name := "B", hasDocuments := true,
         messages := [] }] "b"
      { text := "hi", isUser := true, timestamp := "t",
        sources := none, isError := none })[0]? =
      some { id := "a", title := "A", name := "A", hasDocuments := false,
             messages := [] } ∧
    (handleUploadSuccess
      [{ id := "a", title := "A", name := "A", hasDocuments := false,
         messages := [] },
       { id := "b", title := "B", name := "B", hasDocuments := true,
         messages := [] }] "b")[0]? =
      some { id := "a", title := "A", name := "A", hasDocuments := false,
             messages := [] } ∧
    (handleResetSystem
      { conversations :=
          [{ id := "a", title := "A", name := "A", hasDocuments := false,
             messages := [] },
           { id := "b", title := "B", name := "B", hasDocuments := true,
             messages := [] }],
        activeId := "b" } true true).conversations[0]? =
      some { id := "a", title := "A", name := "A", hasDocuments := false,
             messages := [] } :=
  per_conversation_frame
    [{ id := "a", title := "A", name := "A", hasDocuments := false,
       messages := [] },
     { id := "b", title := "B", name := "B", hasDocuments := true,
       messages := [] }] "b"
    { text := "hi", isUser := true, timestamp := "t",
      sources := none, isError := none }
    { conversations :=
        [{ id := "a", title := "A", name := "A", hasDocuments := false,
           messages := [] },
         { id := "b", title := "B", name := "B", hasDocuments := true,
           messages := [] }],
      activeId := "b" } 0 0
    { id := "a", title := "A", name := "A", hasDocuments := false,
      messages := [] }
    { id := "a", title := "A", name := "A", hasDocuments := false,
      messages := [] }
    rfl (by decide) rfl (by decide)

/-- Claim C10: an input whose trimmed form is empty makes `handleSend` a
no-op (no message appended anywhere, no request dispatched); a non-empty
trimmed input on a ready, idle conversation appends a user message whose
text is the trimmed input in the same step that forms the request — the
request is dispatched only from the state that already contains the
appended user message, and its question is that same trimmed text. -/
theorem send_trim_guard (cs : ChatState) (convs : List Conversation)
    (chatId chatName : String) (hasDocuments : Bool) (ts : String) :
    (jsTrim cs.input = "" →
      handleSendStart cs convs chatId chatName hasDocuments ts =
        (cs, convs, none)) ∧
    (jsTrim cs.input ≠ "" → cs.isLoading = false →
      handleSendStart cs convs chatId chatName true ts =
        ({ input := "", localMessages := cs.localMessages ++
             [{ text := jsTrim cs.input, isUser := true, timestamp := ts,
                sources := none, isError := none }], isLoading := true },
         addMessageToConversation convs chatId
           { text := jsTrim cs.input, isUser := true, timestamp := ts,
             sources := none, isError := none },
         some { question := jsTrim cs.input, chat_id := chatId,
                chat_name := chatName })) :=
  ⟨fun h => handleSendStart_blocked cs convs chatId chatName hasDocuments ts
     (Or.inl h),
   fun h1 h3 => handleSendStart_dispatch cs convs chatId chatName ts h1 h3⟩

/-- Claim C10 witness. -/
theorem send_trim_guard_witness :
    handleSendStart
      { input := "   ", localMessages := [], isLoading := false }
      [] "a" "A" true "t" =
      ({ input := "   ", localMessages := [], isLoading := false },
       [], none) ∧
    handleSendStart
      { input := " hi ", localMessages := [], isLoading := false }
      [] "a" "A" true "t" =
      ({ input := "", localMessages :=
           [{ text := jsTrim " hi ", isUser := true, timestamp := "t",
              sources := none, isError := none }], isLoading := true },
       addMessageToConversation [] "a"
         { text := jsTrim " hi ", isUser := true, timestamp := "t",
           sources := none, isError := none },
       some { question := jsTrim " hi ", chat_id := "a",
              chat_name := "A" }) :=
  ⟨(send_trim_guard
      { input := "   ", localMessages := [], isLoading := false }
      [] "a" "A" true "t").1 (by decide),
   (send_trim_guard
      { input := " hi ", localMessages := [], isLoading := false }
      [] "a" "A" true "t").2 (by decide) rfl⟩

/-- Unfolding `hasDocumentsOf` over a cons cell. -/
theorem hasDocumentsOf_cons (a : Conversation) (tl : List Conversation)
    (id : String) :
    hasDocumentsOf (a :: tl) id =
      if a.id = id then a.hasDocuments else hasDocumentsOf tl id := by
  by_cases h : a.id = id
  · rw [if_pos h]
    unfold hasDocumentsOf
    rw [List.find?_cons_of_pos _ (by simp [h])]
  · rw [if_neg h]
    unfold hasDocumentsOf
    rw [List.find?_cons_of_neg _ (by simp [h])]

/-- Claim C5: a failing query against a ready conversation appends (after the
optimistic user message) exactly one assistant-role message, carrying
`isError = true` and the backend `detail` text when present or the generic
fallback otherwise; the handler is a total function, so no exception
escapes it, and the request was indeed dispatched. -/
theorem query_failure_downgrade (cs : ChatState) (convs : List Conversation)
    (chatId chatName ts1 ts2 : String) (detail : Option String)
    (i : Nat) (c : Conversation)
    (hinput : jsTrim cs.input ≠ "") (hload : cs.isLoading = false)
    (hc : convs[i]? = some c) (hid : c.id = chatId) :
    ((handleSend cs convs chatId chatName true ts1 ts2
        (.failure detail)).2.1)[i]? =
      some { c with messages := c.messages ++
        [{ text := jsTrim cs.input, isUser := true, timestamp := ts1,
           sources := none, isError := none },
         { text := detail.getD queryErrorFallback, isUser := false,
           timestamp := ts2, sources := none, isError := some true }] } ∧
    (([{ text := jsTrim cs.input, isUser := true, timestamp := ts1,
         sources := none, isError := none },
       { text := detail.getD queryErrorFallback, isUser := false,
         timestamp := ts2, sources := none,
         isError := some true }] : List Message).filter
      (fun m => !m.isUser)).length = 1 ∧
    ((handleSend cs convs chatId chatName true ts1 ts2
        (.failure detail)).2.2).isSome = true := by
  have hstart :=
    handleSendStart_dispatch cs convs chatId chatName ts1 hinput hload
  have hu : (addMessageToConversation convs chatId
      { text := jsTrim cs.input, isUser := true, timestamp := ts1,
        sources := none, isError := none })[i]? =
      some { c with messages := c.messages ++
        [{ text := jsTrim cs.input, isUser := true, timestamp := ts1,
           sources := none, isError := none }] } := by
    rw [getElem?_addMessage convs chatId _ i c hc, if_pos hid]
  refine ⟨?_, by simp, ?_⟩
  · show ((match handleSendStart cs convs chatId chatName true ts1 with
      | (cs1, convs1, none) => (cs1, convs1, none)
      | (cs1, convs1, some req) =>
        let fin := handleSendFinish cs1 convs1 chatId (.failure detail) ts2
        (fin.1, fin.2, some req)).2.1)[i]? = _
    rw [hstart]
    show (addMessageToConversation (addMessageToConversation convs chatId _)
      chatId _)[i]? = _
    rw [getElem?_addMessage _ chatId _ i _ hu, if_pos hid]
    simp
  · show ((match handleSendStart cs convs chatId chatName true ts1 with
      | (cs1, convs1, none) => (cs1, convs1, none)
      | (cs1, convs1, some req) =>
        let fin := handleSendFinish cs1 convs1 chatId (.failure detail) ts2
        (fin.1, fin.2, some req)).2.2).isSome = true
    rw [hstart]
    rfl

/-- Claim C5 witness. -/
theorem query_failure_downgrade_witness :
    ((handleSend { input := "why?", localMessages := [], isLoading := false }
        [{ id := "a", title := "A", name := "A", hasDocuments := true,
           messages := [] }] "a" "A" true "t1" "t2"
        (.failure (some "boom"))).2.1)[0]? =
      some { id := "a", title := "A", name := "A", hasDocuments := true,
             messages :=
               [{ text := jsTrim "why?", isUser := true, timestamp := "t1",
                  sources := none, isError := none },
                { text := Option.getD (some "boom") queryErrorFallback,
                  isUser := false, timestamp := "t2", sources := none,
                  isError := some true }] } ∧
    (([{ text := jsTrim "why?", isUser := true, timestamp := "t1",
         sources := none, isError := none },
       { text := Option.getD (some "boom") queryErrorFallback,
         isUser := false, timestamp := "t2", sources := none,
         isError := some true }] : List Message).filter
      (fun m => !m.isUser)).length = 1 ∧
    ((handleSend { input := "why?", localMessages := [], isLoading := false }
        [{ id := "a", title := "A", name := "A", hasDocuments := true,
           messages := [] }] "a" "A" true "t1" "t2"
        (.failure (some "boom"))).2.2).isSome = true := by
  have h := query_failure_downgrade
    { input := "why?", localMessages := [], isLoading := false }
    [{ id := "a", title := "A", name := "A", hasDocuments := true,
       messages := [] }] "a" "A" "t1" "t2" (some "boom") 0
    { id := "a", title := "A", name := "A", hasDocuments := true,
      messages := [] } (by decide) rfl rfl rfl
  simpa using h

/-- Claim C8: the guard of `handleSend` dispatches a query request exactly
when the trimmed input is non-empty, the conversation's `hasDocuments`
flag (as computed from the collection) is true, and no query is in flight
(`isLoading`, which is set for the whole life of a request, is false); and
immediately after a successful upload response the conversation's
`hasDocuments` is true, so query issuance is permitted. -/
theorem query_gating (cs : ChatState) (convs : List Conversation)
    (chatId chatName ts : String) (c : Conversation)
    (hmem : c ∈ convs) (hid : c.id = chatId) :
    ((handleSendStart cs convs chatId chatName (hasDocumentsOf convs chatId)
        ts).2.2).isSome =
      ((jsTrim cs.input != "") && hasDocumentsOf convs chatId &&
        !cs.isLoading) ∧
    hasDocumentsOf (handleUploadSuccess convs chatId) chatId = true := by
  constructor
  · by_cases h1 : jsTrim cs.input = "" <;>
      cases h2 : hasDocumentsOf convs chatId <;>
      cases h3 : cs.isLoading <;>
      simp [handleSendStart, h1, h3]
  · clear cs chatName ts
    induction convs with
    | nil => cases hmem
    | cons a tl ih =>
      rw [handleUploadSuccess, List.map_cons]
      by_cases h : a.id = chatId
      · rw [if_pos h]
        rw [hasDocumentsOf_cons]
        simp [h]
      · rw [if_neg h]
        rw [hasDocumentsOf_cons, if_neg h]
        rcases List.mem_cons.mp hmem with rfl | hmem'
        · exact absurd hid h
        · exact ih hmem'

/-- Claim C8 witness. -/
theorem query_gating_witness :
    ((handleSendStart
        { input := "q", localMessages := [], isLoading := false }
        [{ id := "a", title := "A", name := "A", hasDocuments := true,
           messages := [] }] "a" "A"
        (hasDocumentsOf
          [{ id := "a", title := "A", name := "A", hasDocuments := true,
             messages := [] }] "a") "t").2.2).isSome =
      ((jsTrim "q" != "") &&
        hasDocumentsOf
          [{ id := "a", title := "A", name := "A", hasDocuments := true,
             messages := [] }] "a" && !false) ∧
    hasDocumentsOf
      (handleUploadSuccess
        [{ id := "a", title := "A", name := "A", hasDocuments := true,
           messages := [] }] "a") "a" = true :=
  query_gating { input := "q", localMessages := [], isLoading := false }
    [{ id := "a", title := "A", name := "A", hasDocuments := true,
       messages := [] }] "a" "A" "t"
    { id := "a", title := "A", name := "A", hasDocuments := true,
      messages := [] } (by decide) rfl

/-- Claim C1 counterexample: the startup loader performs no validation, so
persisted data can violate the claimed invariant at startup: with no
stored collection but a stale stored active identifier, the loaded state's
active identifier names no conversation in the collection. -/
theorem startup_active_id_counterexample :
    initState .absent (some "stale") "0" =
      some { conversations := defaultConversations "0",
             activeId := "stale" } ∧
    ¬ ConvInvariant { conversations := defaultConversations "0",
                      activeId := "stale" } := by
  exact ⟨by decide, by decide⟩

/-- Claim C1 (amended): starting from the default initial state (the one the
app builds when nothing usable is persisted), every sequence of
`createConversation` / `deleteConversation` operations whose created
identifiers are fresh keeps the collection non-empty with the active
identifier naming a member; the startup-loaded state itself satisfies the
invariant only when the persisted data does, since loading performs no
validation. -/
theorem conversation_invariant_ops (now : String) (ops : List Op)
    (hFresh : freshAlong (defaultInit now) ops = true) :
    initState .absent none now = some (defaultInit now) ∧
    ConvInvariant (applyOps (defaultInit now) ops) :=
  ⟨initState_absent now,
   (strongInv_applyOps (defaultInit now) ops (strongInv_defaultInit now)
     hFresh).1⟩

/-- Claim C1 witness. -/
theorem conversation_invariant_ops_witness :
    initState .absent none "0" = some (defaultInit "0") ∧
    ConvInvariant (applyOps (defaultInit "0")
      [.create (some "Docs") "id2", .delete "chat_0"]) :=
  conversation_invariant_ops "0"
    [.create (some "Docs") "id2", .delete "chat_0"] (by decide)

/-- Claim C6 counterexample: a persisted value that parses but is not a
conversation collection (here the JSON number `42`) is NOT replaced by the
single default conversation — the initializer returns it unchanged; the
fallback happens only on absent or unparseable data. -/
theorem load_no_validation_counterexample :
    loadConversationsJson (.value (.num 42)) "0" = Json.num 42 ∧
    decodeConversations (Json.num 42) = none ∧
    loadConversationsJson (.value (.num 42)) "0" ≠
      encodeConversations (defaultConversations "0") := by
  refine ⟨rfl, rfl, ?_⟩
  intro h
  injection h

/-- Claim C6 (amended): absent or unparseable persisted data deterministically
falls back to the single default conversation (`title = "New Chat"`,
`indexName = "default"`, no documents, empty history); a persisted value
that parses is returned as-is, without validation; and loading the
serialization of any collection reproduces it field-for-field. -/
theorem load_fallback_and_roundtrip (now : String) (j : Json)
    (cs : List Conversation) :
    loadConversationsJson .absent now =
      encodeConversations (defaultConversations now) ∧
    loadConversationsJson .corrupt now =
      encodeConversations (defaultConversations now) ∧
    loadConversationsJson (.value j) now = j ∧
    decodeConversations (encodeConversations cs) = some cs ∧
    defaultConversations now =
      [{ id := "chat_" ++ now, title := "New Chat", name := "default",
         hasDocuments := false, messages := [] }] :=
  ⟨rfl, rfl, rfl, decode_encode_conversations cs, rfl⟩

/-- Claim C7: the Clear Chat handler clears only the window-local message
copy: the conversation collection — and with it the persisted value, which
is always the serialization of the collection — still contains the cleared
message, contradicting write-through persistence of the bulk-clear
mutation (the cleared messages reappear after switching conversations). -/
theorem clear_chat_not_persisted :
    (clearChatStep
        { input := "", localMessages :=
            [{ text := "hello", isUser := true, timestamp := "t0",
               sources := none, isError := none }], isLoading := false }
        [{ id := "a", title := "A", name := "A", hasDocuments := true,
           messages :=
             [{ text := "hello", isUser := true, timestamp := "t0",
                sources := none, isError := none }] }]
        true).1.localMessages = [] ∧
    (clearChatStep
        { input := "", localMessages :=
            [{ text := "hello", isUser := true, timestamp := "t0",
               sources := none, isError := none }], isLoading := false }
        [{ id := "a", title := "A", name := "A", hasDocuments := true,
           messages :=
             [{ text := "hello", isUser := true, timestamp := "t0",
                sources := none, isError := none }] }]
        true).2 =
      [{ id := "a", title := "A", name := "A", hasDocuments := true,
         messages :=
           [{ text := "hello", isUser := true, timestamp := "t0",
              sources := none, isError := none }] }] ∧
    persistedValue
      (clearChatStep
        { input := "", localMessages :=
            [{ text := "hello", isUser := true, timestamp := "t0",
               sources := none, isError := none }], isLoading := false }
        [{ id := "a", title := "A", name := "A", hasDocuments := true,
           messages :=
             [{ text := "hello", isUser := true, timestamp := "t0",
                sources := none, isError := none }] }]
        true).2 =
      encodeConversations
        [{ id := "a", title := "A", name := "A", hasDocuments := true,
           messages :=
             [{ text := "hello", isUser := true, timestamp := "t0",
                sources := none, isError := none }] }] :=
  ⟨rfl, rfl, rfl⟩

end RagChat
